import Mathlib

set_option maxRecDepth 4000

/-!
Verification development for the ai-resume-analyser client core: the
Puter capability slice (`src/app/lib/puterApiSlice.ts`), the PDF
rasterizer contract (`src/app/lib/pdf2Img.ts`), and the upload/analysis
pipeline (`Upload` route, `handleAnalyze` / `handleSubmit`).
-/

namespace ResumeAnalyser

/-- A value thrown in JavaScript: either an `Error` instance carrying a
message, or any other thrown value (modelled by its string form). -/
inductive Thrown where
  | errObj (msg : String)
  | raw (s : String)
deriving Repr, DecidableEq

/-- Model of JavaScript string coercion of a thrown value
(an `Error` displays as "Error: msg"). -/
def Thrown.display : Thrown → String
  | .errObj m => "Error: " ++ m
  | .raw s => s

/-- Model of the idiom `err instanceof Error ? err.message : fallback`. -/
def Thrown.msgOr : Thrown → String → String
  | .errObj m, _ => m
  | .raw _, fallback => fallback

/-- A delegated asynchronous call: it either resolves with a value or
rejects with a thrown value. -/
abbrev JsCall (α : Type) := Except Thrown α

/-- A Puter user identity (opaque for our purposes). -/
structure PuterUser where
  username : String
deriving Repr, DecidableEq

/-- A file-system item as returned by the Puter fs sub-capability;
the pipeline only consumes its `path`. -/
structure FSItem where
  path : String
deriving Repr, DecidableEq

/-- A key-value entry as returned by `kv.list` with `returnValues`. -/
structure KVItem where
  key : String
  value : String
deriving Repr, DecidableEq

/-- A file-like object; the model tracks its name (used for upload
identity and for the rasterizer's name derivation). -/
structure FileRef where
  name : String
deriving Repr, DecidableEq

/-- `PuterChatOptions` — only the model name is used by the slice. -/
structure PuterChatOptions where
  model : Option String
deriving Repr, DecidableEq

/-- One part of a structured chat message (`type` is "file" or "text"). -/
structure ChatMessagePart where
  ptype : String
  puterPath : Option String
  text : Option String
deriving Repr, DecidableEq

/-- A structured chat message. -/
structure ChatMessage where
  role : String
  content : List ChatMessagePart
deriving Repr, DecidableEq

/-- The second positional argument of `puter.ai.chat`: either an image
URL string or an options object. -/
inductive ChatArg2 where
  | url (s : String)
  | opts (o : PuterChatOptions)
deriving Repr, DecidableEq

/-- The full positional argument tuple the slice passes to
`puter.ai.chat`. -/
structure ChatRequest where
  prompt : Sum String (List ChatMessage)
  arg2 : Option ChatArg2
  arg3 : Option Bool
  arg4 : Option PuterChatOptions
deriving Repr, DecidableEq

/-- The content of an AI response message: a plain string or a list of
content parts, each carrying a `text` field. -/
inductive AIContent where
  | str (s : String)
  | parts (l : List String)
deriving Repr, DecidableEq

/-- The message inside an AI response. -/
structure AIMessage where
  content : AIContent
deriving Repr, DecidableEq

/-- An AI response as consumed by the pipeline. -/
structure AIResponse where
  message : AIMessage
deriving Repr, DecidableEq

/-- Raw bytes (opaque). -/
abbrev Bytes := String

/-- The auth sub-capability of the injected Puter object. -/
structure AuthCap where
  signIn : JsCall Unit
  signOut : JsCall Unit
  getUser : JsCall PuterUser

/-- The fs sub-capability. A result of `none` models a resolved but
falsy (undefined/null) value. -/
structure FsCap where
  write : String → String → JsCall (Option FSItem)
  read : String → JsCall Bytes
  readdir : String → JsCall (List FSItem)
  upload : List String → JsCall (Option FSItem)
  delete : String → JsCall Unit

/-- The ai sub-capability. -/
structure AiCap where
  chat : ChatRequest → JsCall (Option AIResponse)
  img2txt : String → Option Bool → JsCall String

/-- The kv sub-capability. -/
structure KvCap where
  get : String → JsCall (Option String)
  set : String → String → JsCall Bool
  delete : String → JsCall Bool
  list : String → Bool → JsCall (Sum (List String) (List KVItem))
  flush : JsCall Bool

/-- The injected Puter capability object. -/
structure Puter where
  auth : AuthCap
  fs : FsCap
  ai : AiCap
  kv : KvCap

/-- The result a queryFn returns to RTK Query: `{ data }` or
`{ error: string }`. -/
inductive QueryResult (α : Type) where
  | data (a : α)
  | error (e : String)
deriving Repr, DecidableEq

/-- A delegated sub-capability call, as recorded in an operation's
call trace. -/
inductive SubCall where
  | authSignIn
  | authSignOut
  | authGetUser
  | fsWriteCall (path : String)
  | fsReadCall (path : String)
  | fsReaddirCall (path : String)
  | fsUploadCall (files : List String)
  | fsDeleteCall (path : String)
  | aiChatCall (req : ChatRequest)
  | aiImg2txtCall (image : String)
  | kvGetCall (key : String)
  | kvSetCall (key value : String)
  | kvDeleteCall (key : String)
  | kvListCall (pattern : String) (returnValues : Bool)
  | kvFlushCall
deriving Repr, DecidableEq

/-- A Redux action dispatched by an operation. -/
inductive Action where
  | checkAuthStatus
  | setUser (user : Option PuterUser)
  | setPuter (ready : Bool)
deriving Repr, DecidableEq

/-- What one invocation of an operation's queryFn produced: its RTK
result, the delegated sub-capability calls it attempted, and the Redux
actions it dispatched. -/
structure OpOutcome (α : Type) where
  result : QueryResult α
  calls : List SubCall
  actions : List Action
deriving Repr, DecidableEq

/-- The fixed capability-unavailable error string returned by every
operation when `getPuter()` yields `null`. -/
def puterUnavailable : String := "Puter.js not available"

/-- `signIn` mutation queryFn (puterApiSlice.ts). -/
def signInQueryFn (gw : Option Puter) : OpOutcome Unit :=
  match gw with
  | none => ⟨.error puterUnavailable, [], []⟩
  | some p =>
    match p.auth.signIn with
    | .ok _ => ⟨.data (), [.authSignIn], [.checkAuthStatus]⟩
    | .error e => ⟨.error (e.msgOr "Sign in failed"), [.authSignIn], []⟩

/-- `signOut` mutation queryFn. -/
def signOutQueryFn (gw : Option Puter) : OpOutcome Unit :=
  match gw with
  | none => ⟨.error puterUnavailable, [], []⟩
  | some p =>
    match p.auth.signOut with
    | .ok _ => ⟨.data (), [.authSignOut], [.setUser none]⟩
    | .error e => ⟨.error (e.msgOr "Sign out failed"), [.authSignOut], []⟩

/-- `refreshUser` mutation queryFn. -/
def refreshUserQueryFn (gw : Option Puter) : OpOutcome Unit :=
  match gw with
  | none => ⟨.error puterUnavailable, [], []⟩
  | some p =>
    match p.auth.getUser with
    | .ok u => ⟨.data (), [.authGetUser], [.setUser (some u)]⟩
    | .error e => ⟨.error (e.msgOr "Failed to refresh user"), [.authGetUser], []⟩

/-- `fsWrite` mutation queryFn. -/
def fsWriteQueryFn (gw : Option Puter) (path : String) (data : String) :
    OpOutcome (Option FSItem) :=
  match gw with
  | none => ⟨.error puterUnavailable, [], []⟩
  | some p =>
    match p.fs.write path data with
    | .ok r => ⟨.data r, [.fsWriteCall path], []⟩
    | .error e => ⟨.error (e.msgOr "Write failed"), [.fsWriteCall path], []⟩

/-- Model of `URL.createObjectURL` on a blob of the given payload. -/
def objectUrlOf (payload : String) : String := "blob:" ++ payload

/-- `fsRead` query queryFn: converts the returned bytes into an object
URL, with a PDF-specific blob wrapping when `isPdf` is set. -/
def fsReadQueryFn (gw : Option Puter) (path : String) (isPdf : Bool) :
    OpOutcome String :=
  match gw with
  | none => ⟨.error puterUnavailable, [], []⟩
  | some p =>
    match p.fs.read path with
    | .ok bytes =>
      let url := if isPdf then objectUrlOf ("application/pdf:" ++ bytes)
                 else objectUrlOf bytes
      ⟨.data url, [.fsReadCall path], []⟩
    | .error e => ⟨.error (e.msgOr "Read failed"), [.fsReadCall path], []⟩

/-- `fsReadir` query queryFn (name as in the source). -/
def fsReadirQueryFn (gw : Option Puter) (path : String) :
    OpOutcome (List FSItem) :=
  match gw with
  | none => ⟨.error puterUnavailable, [], []⟩
  | some p =>
    match p.fs.readdir path with
    | .ok items => ⟨.data items, [.fsReaddirCall path], []⟩
    | .error e => ⟨.error (e.msgOr "Read failed"), [.fsReaddirCall path], []⟩

/-- `fsUpload` mutation queryFn. -/
def fsUploadQueryFn (gw : Option Puter) (files : List String) :
    OpOutcome (Option FSItem) :=
  match gw with
  | none => ⟨.error puterUnavailable, [], []⟩
  | some p =>
    match p.fs.upload files with
    | .ok r => ⟨.data r, [.fsUploadCall files], []⟩
    | .error e => ⟨.error (e.msgOr "Upload failed"), [.fsUploadCall files], []⟩

/-- `fsDelete` mutation queryFn. -/
def fsDeleteQueryFn (gw : Option Puter) (path : String) : OpOutcome Unit :=
  match gw with
  | none => ⟨.error puterUnavailable, [], []⟩
  | some p =>
    match p.fs.delete path with
    | .ok _ => ⟨.data (), [.fsDeleteCall path], []⟩
    | .error e => ⟨.error (e.msgOr "Delete failed"), [.fsDeleteCall path], []⟩

/-- `aiChat` query queryFn. -/
def aiChatQueryFn (gw : Option Puter) (prompt : Sum String (List ChatMessage))
    (imageURL : Option ChatArg2) (testMode : Option Bool)
    (options : Option PuterChatOptions) : OpOutcome (Option AIResponse) :=
  match gw with
  | none => ⟨.error puterUnavailable, [], []⟩
  | some p =>
    let req : ChatRequest := ⟨prompt, imageURL, testMode, options⟩
    match p.ai.chat req with
    | .ok r => ⟨.data r, [.aiChatCall req], []⟩
    | .error e => ⟨.error (e.msgOr "AI chat failed"), [.aiChatCall req], []⟩

/-- The structured multi-part message `aiFeedback` sends: a file
reference by stored path plus a text instruction, with the fixed model. -/
def aiFeedbackRequest (path message : String) : ChatRequest :=
  ⟨Sum.inr [⟨"user", [⟨"file", some path, none⟩, ⟨"text", none, some message⟩]⟩],
   some (.opts ⟨some "claude-sonnet-4"⟩), none, none⟩

/-- `aiFeedback` mutation queryFn. -/
def aiFeedbackQueryFn (gw : Option Puter) (path message : String) :
    OpOutcome (Option AIResponse) :=
  match gw with
  | none => ⟨.error puterUnavailable, [], []⟩
  | some p =>
    let req := aiFeedbackRequest path message
    match p.ai.chat req with
    | .ok r => ⟨.data r, [.aiChatCall req], []⟩
    | .error e => ⟨.error (e.msgOr "AI feedback failed"), [.aiChatCall req], []⟩

/-- `aiImg2txt` query queryFn. -/
def aiImg2txtQueryFn (gw : Option Puter) (image : String)
    (testMode : Option Bool) : OpOutcome String :=
  match gw with
  | none => ⟨.error puterUnavailable, [], []⟩
  | some p =>
    match p.ai.img2txt image testMode with
    | .ok s => ⟨.data s, [.aiImg2txtCall image], []⟩
    | .error e => ⟨.error (e.msgOr "Image to text failed"), [.aiImg2txtCall image], []⟩

/-- `kvGet` query queryFn. -/
def kvGetQueryFn (gw : Option Puter) (key : String) :
    OpOutcome (Option String) :=
  match gw with
  | none => ⟨.error puterUnavailable, [], []⟩
  | some p =>
    match p.kv.get key with
    | .ok r => ⟨.data r, [.kvGetCall key], []⟩
    | .error e => ⟨.error (e.msgOr "KV get failed"), [.kvGetCall key], []⟩

/-- `kvSet` mutation queryFn. -/
def kvSetQueryFn (gw : Option Puter) (key value : String) : OpOutcome Bool :=
  match gw with
  | none => ⟨.error puterUnavailable, [], []⟩
  | some p =>
    match p.kv.set key value with
    | .ok b => ⟨.data b, [.kvSetCall key value], []⟩
    | .error e => ⟨.error (e.msgOr "KV set failed"), [.kvSetCall key value], []⟩

/-- `kvDelete` mutation queryFn. -/
def kvDeleteQueryFn (gw : Option Puter) (key : String) : OpOutcome Bool :=
  match gw with
  | none => ⟨.error puterUnavailable, [], []⟩
  | some p =>
    match p.kv.delete key with
    | .ok b => ⟨.data b, [.kvDeleteCall key], []⟩
    | .error e => ⟨.error (e.msgOr "KV delete failed"), [.kvDeleteCall key], []⟩

/-- `kvList` query queryFn (`returnValues` defaults to `false` at the
call sites that omit it). -/
def kvListQueryFn (gw : Option Puter) (pattern : String)
    (returnValues : Bool) : OpOutcome (Sum (List String) (List KVItem)) :=
  match gw with
  | none => ⟨.error puterUnavailable, [], []⟩
  | some p =>
    match p.kv.list pattern returnValues with
    | .ok r => ⟨.data r, [.kvListCall pattern returnValues], []⟩
    | .error e => ⟨.error (e.msgOr "KV list failed"), [.kvListCall pattern returnValues], []⟩

/-- `kvFlush` mutation queryFn. -/
def kvFlushQueryFn (gw : Option Puter) : OpOutcome Bool :=
  match gw with
  | none => ⟨.error puterUnavailable, [], []⟩
  | some p =>
    match p.kv.flush with
    | .ok b => ⟨.data b, [.kvFlushCall], []⟩
    | .error e => ⟨.error (e.msgOr "KV flush failed"), [.kvFlushCall], []⟩

/-- How an `init` invocation settled: success, or the error object
`\x7b message: ... \x7d` resolved by the timeout handler. -/
inductive InitSettled where
  | data
  | errorObj (message : String)
deriving Repr, DecidableEq

/-- One complete execution of the `init` mutation's queryFn. -/
structure InitRun where
  /-- `none` models a promise that never settles. -/
  settled : Option InitSettled
  actions : List Action
  /-- Whether no interval/timer is left pending when the execution is
  over (cleared or already fired). -/
  timersCleanedUp : Bool
  /-- Milliseconds elapsed when the promise settled, if it did. -/
  resolvedAtMs : Option Nat
deriving Repr, DecidableEq

/-- The timeout handler's error message in `init`. -/
def initTimeoutMsg : String := "Puter.js failed to load within 10 seconds"

/-- The first interval tick (1-based, one tick per 100ms, 100 ticks
before the 10s timeout fires) at which `getPuter()` is truthy.
`avail k` is the availability sampled at tick `k`; `avail 0` is the
synchronous check at invocation and `avail 101` the re-check inside the
timeout handler. -/
def firstAvailTick (avail : Nat → Bool) : Option Nat :=
  ((List.range 100).find? (fun k => avail (k + 1))).map (· + 1)

/-- `init` mutation queryFn: if the gateway is present, succeed at once;
otherwise poll every 100ms inside a promise. The interval callback, on
availability, clears both timers, dispatches, and resolves with data.
The 10s timeout clears the interval and resolves with the timeout error
object only if the gateway is still absent at its own re-check — if the
gateway appeared between the last tick and that re-check, neither
callback ever resolves the promise (both timers are nevertheless done). -/
def initQueryFn (avail : Nat → Bool) : InitRun :=
  if avail 0 then
    -- synchronous branch: no timers are ever created
    ⟨some .data, [.setPuter true, .checkAuthStatus], true, some 0⟩
  else
    match firstAvailTick avail with
    | some k =>
      -- interval tick k: clearInterval, clearTimeout, dispatch, resolve
      ⟨some .data, [.setPuter true, .checkAuthStatus], true, some (100 * k)⟩
    | none =>
      if avail 101 then
        -- timeout fired, clearInterval ran, but the re-check sees the
        -- gateway: the promise is never resolved
        ⟨none, [], true, none⟩
      else
        -- timeout fired, clearInterval ran, re-check still unavailable
        ⟨some (.errorObj initTimeoutMsg), [], true, some 10000⟩

/-- Query vs mutation. -/
inductive OpKind where
  | query
  | mutation
deriving Repr, DecidableEq

/-- The slice's single tag type (`tagTypes: ["AuthStatus"]`). -/
inductive Tag where
  | AuthStatus
deriving Repr, DecidableEq

/-- One endpoint of the declarative catalog: its kind and its
`providesTags` / `invalidatesTags` declarations. -/
structure EndpointDef where
  name : String
  kind : OpKind
  providesTags : List Tag
  invalidatesTags : List Tag
deriving Repr, DecidableEq

/-- The endpoint catalog of `puterApiSlice`, with the tag declarations
exactly as in the source. -/
def puterApiEndpoints : List EndpointDef :=
  [⟨"signIn", .mutation, [], [.AuthStatus]⟩,
   ⟨"signOut", .mutation, [], [.AuthStatus]⟩,
   ⟨"refreshUser", .mutation, [], []⟩,
   ⟨"init", .mutation, [], [.AuthStatus]⟩,
   ⟨"fsWrite", .mutation, [], []⟩,
   ⟨"fsRead", .query, [], []⟩,
   ⟨"fsReadir", .query, [], []⟩,
   ⟨"fsUpload", .mutation, [], []⟩,
   ⟨"fsDelete", .mutation, [], []⟩,
   ⟨"aiChat", .query, [], []⟩,
   ⟨"aiFeedback", .mutation, [], []⟩,
   ⟨"aiImg2txt", .query, [], []⟩,
   ⟨"kvGet", .query, [], []⟩,
   ⟨"kvSet", .mutation, [], []⟩,
   ⟨"kvDelete", .mutation, [], []⟩,
   ⟨"kvList", .query, [.AuthStatus], []⟩,
   ⟨"kvFlush", .mutation, [], []⟩]

/-- Look an endpoint up by name. -/
def endpointNamed (n : String) : Option EndpointDef :=
  puterApiEndpoints.find? (fun e => e.name == n)

/-- RTK Query semantics: a mutation invalidates a cached query result
iff one of its `invalidatesTags` is among the query's `providesTags`. -/
def invalidates (m q : EndpointDef) : Bool :=
  m.invalidatesTags.any (fun t => q.providesTags.contains t)

/-- A cached query result, keyed by endpoint name and serialized
arguments. -/
structure CacheEntry where
  endpoint : String
  args : String
  value : String
deriving Repr, DecidableEq

/-- Effect of a successful mutation on the query cache: entries whose
endpoint provides an invalidated tag are evicted (forced to refetch);
all other entries are served unchanged. -/
def applyMutation (m : EndpointDef) (cache : List CacheEntry) :
    List CacheEntry :=
  cache.filter (fun e =>
    match endpointNamed e.endpoint with
    | some q => !(invalidates m q)
    | none => true)

/-- The result of `convertPdfToImage`. -/
structure PdfConversionResult where
  imageUrl : String
  file : Option FileRef
  error : Option String
deriving Repr, DecidableEq

/-- A blob produced by canvas serialization (opaque payload used to
derive its object URL). -/
structure BlobV where
  id : String
deriving Repr, DecidableEq

/-- The external steps the rasterizer attempts, in order. -/
inductive RasterStep where
  | readBytes
  | loadDocument
  | getPage
  | render
  | toBlobCall
deriving Repr, DecidableEq

/-- The external world as seen by one `convertPdfToImage` call: the
outcome of each awaited host/library operation. -/
structure PdfEnv where
  /-- `file.arrayBuffer()` — resolves with the raw bytes or rejects. -/
  readBytes : JsCall Bytes
  /-- `lib.getDocument(\x7b data \x7d).promise`. -/
  loadDocument : Bytes → JsCall Unit
  /-- `pdf.getPage(1)`. -/
  getPage : JsCall Unit
  /-- Whether `canvas.getContext("2d")` returns a context (else null). -/
  context2dAvailable : Bool
  /-- `page.render(...).promise`. -/
  render : JsCall Unit
  /-- The blob the `canvas.toBlob` callback yields (`none` = null). -/
  toBlob : Option BlobV

/-- ASCII lower-casing of one character. -/
def lowerChar (c : Char) : Char :=
  if 'A' ≤ c ∧ c ≤ 'Z' then Char.ofNat (c.toNat + 32) else c

/-- Output file name: any case-insensitive `.pdf` suffix is swapped for
`.png`; otherwise `.png` is appended. -/
def pngName (name : String) : String :=
  let cs := name.data
  if ((cs.reverse.take 4).map lowerChar).reverse = ['.', 'p', 'd', 'f'] then
    String.mk ((cs.reverse.drop 4).reverse ++ ['.', 'p', 'n', 'g'])
  else
    String.mk (cs ++ ['.', 'p', 'n', 'g'])

/-- Modelled from the spec: `src/app/lib/pdf2Img.ts` is not present
under `src/` (only its unit tests are), so `convertPdfToImage` is
modelled from spec §4.2: read all bytes, load the document and first
page at 4x scale, check for a 2D context (returning the fixed
"Canvas 2D context not supported" error when unavailable, before any
blob serialization), render, serialize to a PNG blob (null blob gives
the fixed "Failed to create image blob" error), and on success wrap the
blob as `<stem>.png` with an object URL; any exception from steps 1-5
is caught and reported as "Failed to convert PDF: " plus the thrown
value's display form. The second component is the trace of external
steps attempted. -/
def convertPdfToImage (env : PdfEnv) (fileName : String) :
    PdfConversionResult × List RasterStep :=
  match env.readBytes with
  | .error e =>
    (⟨"", none, some ("Failed to convert PDF: " ++ e.display)⟩, [.readBytes])
  | .ok bytes =>
    match env.loadDocument bytes with
    | .error e =>
      (⟨"", none, some ("Failed to convert PDF: " ++ e.display)⟩,
       [.readBytes, .loadDocument])
    | .ok _ =>
      match env.getPage with
      | .error e =>
        (⟨"", none, some ("Failed to convert PDF: " ++ e.display)⟩,
         [.readBytes, .loadDocument, .getPage])
      | .ok _ =>
        if env.context2dAvailable then
          match env.render with
          | .error e =>
            (⟨"", none, some ("Failed to convert PDF: " ++ e.display)⟩,
             [.readBytes, .loadDocument, .getPage, .render])
          | .ok _ =>
            match env.toBlob with
            | none =>
              (⟨"", none, some "Failed to create image blob"⟩,
               [.readBytes, .loadDocument, .getPage, .render, .toBlobCall])
            | some b =>
              (⟨objectUrlOf b.id, some ⟨pngName fileName⟩, none⟩,
               [.readBytes, .loadDocument, .getPage, .render, .toBlobCall])
        else
          (⟨"", none, some "Canvas 2D context not supported"⟩,
           [.readBytes, .loadDocument, .getPage])

/-- One tip of a feedback category. -/
structure FeedbackTip where
  ttype : String
  tip : String
deriving Repr, DecidableEq

/-- One feedback category: a numeric score and its tips. -/
structure FeedbackCategory where
  score : Int
  tips : List FeedbackTip
deriving Repr, DecidableEq

/-- The structured AI feedback: an overall score and the five fixed
sub-scores. -/
structure Feedback where
  overallScore : Int
  ATS : FeedbackCategory
  toneAndStyle : FeedbackCategory
  content : FeedbackCategory
  structureCat : FeedbackCategory
  skills : FeedbackCategory
deriving Repr, DecidableEq

/-- The `feedback` field of a record: the empty-string placeholder set
at creation, or the parsed feedback object assigned in step 6. -/
inductive FeedbackField where
  | empty
  | parsed (f : Feedback)
deriving Repr, DecidableEq

/-- The record the pipeline persists under `resume:<id>`. -/
structure ResumeRecord where
  id : String
  resumePath : String
  imagePath : String
  companyName : String
  jobTitle : String
  jobDescription : String
  feedback : FeedbackField
deriving Repr, DecidableEq

/-- JSON-style rendering of a quoted string (escaping elided in the
model). -/
def jstr (s : String) : String := "\"" ++ s ++ "\""

/-- Model of `JSON.stringify` on a feedback category. -/
def stringifyCategory (c : FeedbackCategory) : String :=
  "\x7b" ++ jstr "score" ++ ":" ++ toString c.score ++ "," ++
    jstr "tips" ++ ":[" ++
    String.intercalate ","
      (c.tips.map (fun t =>
        "\x7b" ++ jstr "type" ++ ":" ++ jstr t.ttype ++ "," ++
          jstr "tip" ++ ":" ++ jstr t.tip ++ "\x7d")) ++
    "]\x7d"

/-- Model of `JSON.stringify` on a feedback value. -/
def stringifyFeedback (f : Feedback) : String :=
  "\x7b" ++ jstr "overallScore" ++ ":" ++ toString f.overallScore ++ "," ++
    jstr "ATS" ++ ":" ++ stringifyCategory f.ATS ++ "," ++
    jstr "toneAndStyle" ++ ":" ++ stringifyCategory f.toneAndStyle ++ "," ++
    jstr "content" ++ ":" ++ stringifyCategory f.content ++ "," ++
    jstr "structure" ++ ":" ++ stringifyCategory f.structureCat ++ "," ++
    jstr "skills" ++ ":" ++ stringifyCategory f.skills ++ "\x7d"

/-- Model of `JSON.stringify` on the persisted record (`feedback` is
the empty string before parsing, the feedback object after). -/
def stringifyRecord (r : ResumeRecord) : String :=
  "\x7b" ++ jstr "id" ++ ":" ++ jstr r.id ++ "," ++
    jstr "resumePath" ++ ":" ++ jstr r.resumePath ++ "," ++
    jstr "imagePath" ++ ":" ++ jstr r.imagePath ++ "," ++
    jstr "companyName" ++ ":" ++ jstr r.companyName ++ "," ++
    jstr "jobTitle" ++ ":" ++ jstr r.jobTitle ++ "," ++
    jstr "jobDescription" ++ ":" ++ jstr r.jobDescription ++ "," ++
    jstr "feedback" ++ ":" ++
    (match r.feedback with
     | .empty => jstr ""
     | .parsed f => stringifyFeedback f) ++ "\x7d"

/-- The external key-value store, newest write first. -/
abbrev KvStore := List (String × String)

/-- A `kv.set` that succeeded: the new pair shadows any older one. -/
def kvInsert (key value : String) (store : KvStore) : KvStore :=
  (key, value) :: store

/-- Current value under a key (the most recent write). -/
def kvLookup (store : KvStore) (key : String) : Option String :=
  (store.find? (fun e => e.1 == key)).map (fun e => e.2)

/-- RTK `unwrap()`: resolves with the data, or rejects with the raw
error value (which for this slice is a plain string, not an `Error`
instance). -/
def unwrap {α : Type} : QueryResult α → Except Thrown α
  | .data a => .ok a
  | .error e => .error (.raw e)

/-- Run the `kvSet` mutation against the gateway and the external
store: the store gains the pair exactly when the delegated `kv.set`
resolved. -/
def kvSetEffect (gw : Option Puter) (store : KvStore) (key value : String) :
    OpOutcome Bool × KvStore :=
  let o := kvSetQueryFn gw key value
  match gw with
  | none => (o, store)
  | some p =>
    match p.kv.set key value with
    | .ok _ => (o, kvInsert key value store)
    | .error _ => (o, store)

/-- Modelled from the spec: `prepareInstructions` lives in `constants`
(not under `src/`); per spec §4.4/§6 it is an instruction string built
from the job title and the job description. -/
def prepareInstructions (jobTitle jobDescription : String) : String :=
  "Analyze this resume for the job title: " ++ jobTitle ++
    " and the job description: " ++ jobDescription

/-- Step 6's extraction of the textual payload:
`typeof content === "string" ? content : content[0].text`; indexing an
empty parts array throws a TypeError (an `Error` instance). -/
def extractFeedbackText (r : AIResponse) : Except Thrown String :=
  match r.message.content with
  | .str s => .ok s
  | .parts [] =>
    .error (.errObj "Cannot read properties of undefined (reading 'text')")
  | .parts (t :: _) => .ok t

/-- The user-supplied pipeline inputs (already validated). -/
structure AnalyzeInput where
  companyName : String
  jobTitle : String
  jobDescription : String
  file : FileRef
deriving Repr, DecidableEq

/-- The state accumulated by the `try` block of `handleAnalyze` up to
the point where it returned or threw. -/
structure BodyOut where
  thrown : Option Thrown
  statusText : String
  store : KvStore
  nav : Option String
  calls : List SubCall
deriving Repr, DecidableEq

/-- The `try` block of `handleAnalyze` (Upload route): the seven
sequential steps, each explicit falsy-result abort returning with its
step-specific status, every `unwrap` rejection or JSON parse error
recorded as a thrown value for the outer catch. -/
def handleAnalyzeBody (gw : Option Puter) (pdf : PdfEnv)
    (jsonParse : String → Except String Feedback) (uuid : String)
    (inp : AnalyzeInput) (store0 : KvStore) : BodyOut :=
  -- Step 1: upload the PDF file
  let u1 := fsUploadQueryFn gw [inp.file.name]
  match unwrap u1.result with
  | .error t => ⟨some t, "upload.status.uploading", store0, none, u1.calls⟩
  | .ok none =>
    ⟨none, "upload.errors.uploadFailed", store0, none, u1.calls⟩
  | .ok (some item1) =>
    -- Step 2: convert PDF to image
    let conv := convertPdfToImage pdf inp.file.name
    match conv.1.file with
    | none => ⟨none, "upload.errors.convertFailed", store0, none, u1.calls⟩
    | some imgFile =>
      -- Step 3: upload the image
      let u2 := fsUploadQueryFn gw [imgFile.name]
      match unwrap u2.result with
      | .error t =>
        ⟨some t, "upload.status.uploadingImage", store0, none,
         u1.calls ++ u2.calls⟩
      | .ok none =>
        ⟨none, "upload.errors.imageUploadFailed", store0, none,
         u1.calls ++ u2.calls⟩
      | .ok (some item2) =>
        -- Step 4: prepare data and save to KV store
        let rec0 : ResumeRecord :=
          ⟨uuid, item1.path, item2.path, inp.companyName, inp.jobTitle,
           inp.jobDescription, .empty⟩
        let key := "resume:" ++ uuid
        let k1 := kvSetEffect gw store0 key (stringifyRecord rec0)
        let calls4 := u1.calls ++ u2.calls ++ k1.1.calls
        match unwrap k1.1.result with
        | .error t =>
          ⟨some t, "upload.status.preparing", k1.2, none, calls4⟩
        | .ok _ =>
          -- Step 5: analyze resume with AI
          let fb := aiFeedbackQueryFn gw item1.path
            (prepareInstructions inp.jobTitle inp.jobDescription)
          let calls5 := calls4 ++ fb.calls
          match unwrap fb.result with
          | .error t =>
            ⟨some t, "upload.status.analyzing", k1.2, none, calls5⟩
          | .ok none =>
            ⟨none, "upload.errors.analysisFailed", k1.2, none, calls5⟩
          | .ok (some resp) =>
            -- Step 6: extract and parse the feedback text
            match extractFeedbackText resp with
            | .error t =>
              ⟨some t, "upload.status.analyzing", k1.2, none, calls5⟩
            | .ok text =>
              match jsonParse text with
              | .error e =>
                ⟨some (.errObj e), "upload.status.analyzing", k1.2, none,
                 calls5⟩
              | .ok f =>
                -- Step 7: overwrite the record with the parsed feedback
                let rec1 := { rec0 with feedback := .parsed f }
                let k2 := kvSetEffect gw k1.2 key (stringifyRecord rec1)
                let calls7 := calls5 ++ k2.1.calls
                match unwrap k2.1.result with
                | .error t =>
                  ⟨some t, "upload.status.analyzing", k2.2, none, calls7⟩
                | .ok _ =>
                  ⟨none, "upload.status.complete", k2.2,
                   some ("/resume/" ++ uuid), calls7⟩

/-- The observable outcome of one `handleAnalyze` invocation. -/
structure PipelineRun where
  statusText : String
  isProcessing : Bool
  store : KvStore
  nav : Option String
  calls : List SubCall
deriving Repr, DecidableEq

/-- `handleAnalyze`: runs the `try` block, the catch turns any thrown
value into the status `Error: ` plus its message (or the fixed fallback
when the value is not an `Error` instance), and the `finally` clears
`isProcessing` on every path. -/
def handleAnalyze (gw : Option Puter) (pdf : PdfEnv)
    (jsonParse : String → Except String Feedback) (uuid : String)
    (inp : AnalyzeInput) (store0 : KvStore) : PipelineRun :=
  let b := handleAnalyzeBody gw pdf jsonParse uuid inp store0
  let status :=
    match b.thrown with
    | some t => "Error: " ++ t.msgOr "An unexpected error occurred"
    | none => b.statusText
  ⟨status, false, b.store, b.nav, b.calls⟩

/-- The outcome of a form submission: a blocking validation alert, or a
pipeline run. -/
inductive SubmitOutcome where
  | alerted (msg : String)
  | ran (run : PipelineRun)
deriving Repr, DecidableEq

/-- A JavaScript whitespace character (the common ones). -/
def isJsSpace (c : Char) : Bool :=
  c = ' ' || c = '\t' || c = '\n' || c = '\r'

/-- Model of `String.prototype.trim`. -/
def jsTrim (s : String) : String :=
  String.mk (((s.data.dropWhile isJsSpace).reverse.dropWhile isJsSpace).reverse)

/-- `handleSubmit`: validates company name, job title, job description
(non-empty after trimming) then the selected file, in that order,
alerting and stopping at the first failure; otherwise starts
`handleAnalyze`. -/
def handleSubmit (gw : Option Puter) (pdf : PdfEnv)
    (jsonParse : String → Except String Feedback) (uuid : String)
    (companyName jobTitle jobDescription : String) (file : Option FileRef)
    (store0 : KvStore) : SubmitOutcome :=
  if jsTrim companyName = "" then .alerted "upload.errors.companyNameRequired"
  else if jsTrim jobTitle = "" then .alerted "upload.errors.jobTitleRequired"
  else if jsTrim jobDescription = "" then
    .alerted "upload.errors.jobDescriptionRequired"
  else
    match file with
    | none => .alerted "upload.errors.fileRequired"
    | some f =>
      .ran (handleAnalyze gw pdf jsonParse uuid
        ⟨companyName, jobTitle, jobDescription, f⟩ store0)

/-- The delegated calls a submission caused (none when it only
alerted). -/
def SubmitOutcome.callsMade : SubmitOutcome → List SubCall
  | .alerted _ => []
  | .ran run => run.calls

/-! ### Concrete fixtures used by witnesses and counterexamples -/

/-- A rasterizer environment where every external step succeeds. -/
def okPdfEnv : PdfEnv :=
  ⟨.ok "bytes", fun _ => .ok (), .ok (), true, .ok (), some ⟨"img"⟩⟩

/-- `okPdfEnv` with the 2D canvas context unavailable. -/
def noCtxPdfEnv : PdfEnv := { okPdfEnv with context2dAvailable := false }

/-- A capability object whose delegated calls all succeed, with a
configurable `ai.chat` result; `fs.upload` resolves with the first
uploaded file's name as the stored path. -/
def basePuter (fb : JsCall (Option AIResponse)) : Puter :=
  { auth := ⟨.ok (), .ok (), .ok ⟨"u"⟩⟩
    fs := { write := fun _ _ => .ok (some ⟨"w"⟩)
            read := fun _ => .ok "bytes"
            readdir := fun _ => .ok []
            upload := fun fs => .ok (some ⟨fs.headD ""⟩)
            delete := fun _ => .ok () }
    ai := { chat := fun _ => fb, img2txt := fun _ _ => .ok "t" }
    kv := { get := fun _ => .ok none
            set := fun _ _ => .ok true
            delete := fun _ => .ok true
            list := fun _ _ => .ok (.inl [])
            flush := .ok true } }

/-- Fixed validated pipeline inputs. -/
def inp0 : AnalyzeInput := ⟨"Acme", "Eng", "Desc", ⟨"cv.pdf"⟩⟩

/-- A feedback value with an out-of-range overall score, as
`JSON.parse` yields for AI output such as
`\x7b"overallScore":150,...\x7d`. -/
def fb150 : Feedback := ⟨150, ⟨0, []⟩, ⟨0, []⟩, ⟨0, []⟩, ⟨0, []⟩, ⟨0, []⟩⟩

/-- A `JSON.parse` behavior resolving with `fb150`. -/
def parse150 : String → Except String Feedback := fun _ => .ok fb150

/-- A `JSON.parse` behavior that throws a SyntaxError. -/
def parseErr : String → Except String Feedback :=
  fun _ => .error "Unexpected token N in JSON"

/-- An AI response carrying a plain-string payload. -/
def respStr : AIResponse := ⟨⟨.str "payload"⟩⟩

/-! ### Helper lemmas -/

theorem kvLookup_insert_self (key value : String) (store : KvStore) :
    kvLookup (kvInsert key value store) key = some value := by
  simp [kvLookup, kvInsert, List.find?]

theorem objectUrlOf_ne_empty (s : String) : objectUrlOf s ≠ "" := by
  intro h
  have hd := congrArg String.data h
  simp [objectUrlOf, String.data_append] at hd

/-! ### Claim theorems -/

/-- C6: for every pipeline invocation — whatever the gateway, the
rasterizer environment, the JSON parser behavior, the inputs, and the
initial store, hence on every exit path (success, each explicit
falsy-result abort, or any thrown error reaching the outer catch) —
the in-progress flag is false when `handleAnalyze` finishes. -/
theorem isProcessing_cleared_on_every_path (gw : Option Puter)
    (pdf : PdfEnv) (jsonParse : String → Except String Feedback)
    (uuid : String) (inp : AnalyzeInput) (store0 : KvStore) :
    (handleAnalyze gw pdf jsonParse uuid inp store0).isProcessing = false :=
  rfl

/-- C4 counterexample: with the gateway unavailable at step 1, the
upload's `unwrap` rejects with the raw capability-unavailable string
(not an `Error` instance), so the run ends with the generic outer-catch
status, not the upload-specific failure status the claim names; no
record is persisted and no delegated call occurs. -/
theorem gateway_down_not_upload_status_counterexample :
    (handleAnalyze none okPdfEnv parseErr "u1" inp0 []).statusText
        = "Error: An unexpected error occurred" ∧
    (handleAnalyze none okPdfEnv parseErr "u1" inp0 []).statusText
        ≠ "upload.errors.uploadFailed" ∧
    (handleAnalyze none okPdfEnv parseErr "u1" inp0 []).store = [] ∧
    (handleAnalyze none okPdfEnv parseErr "u1" inp0 []).calls = [] := by
  refine ⟨rfl, ?_, rfl, rfl⟩
  decide

/-- C4 (amended): when the gateway is unavailable as step 1 runs, the
pipeline stops at step 1 with the generic outer-catch status
"Error: An unexpected error occurred" (the upload rejection is a plain
string, not an `Error`), navigates nowhere, leaves the key-value store
untouched, and attempts no delegated call — in particular no kvSet. -/
theorem gateway_down_aborts_step1_no_persist (pdf : PdfEnv)
    (jsonParse : String → Except String Feedback) (uuid : String)
    (inp : AnalyzeInput) (store0 : KvStore) :
    handleAnalyze none pdf jsonParse uuid inp store0
      = ⟨"Error: An unexpected error occurred", false, store0, none, []⟩ :=
  rfl

/-- C10: the kv mutations declare no invalidation tags, so they evict
nothing from the query cache (any cached `kvList` result is served
unchanged after they succeed); the catalog's only provided tag is
`AuthStatus` on `kvList`, and exactly `signIn`, `signOut` and `init`
invalidate it. -/
theorem kv_mutations_invalidate_nothing :
    endpointNamed "kvSet" = some ⟨"kvSet", .mutation, [], []⟩ ∧
    endpointNamed "kvDelete" = some ⟨"kvDelete", .mutation, [], []⟩ ∧
    endpointNamed "kvFlush" = some ⟨"kvFlush", .mutation, [], []⟩ ∧
    (∀ cache, applyMutation ⟨"kvSet", .mutation, [], []⟩ cache = cache) ∧
    (∀ cache, applyMutation ⟨"kvDelete", .mutation, [], []⟩ cache = cache) ∧
    (∀ cache, applyMutation ⟨"kvFlush", .mutation, [], []⟩ cache = cache) ∧
    (puterApiEndpoints.filter (fun e => !e.providesTags.isEmpty)).map
        (fun e => e.name) = ["kvList"] ∧
    (puterApiEndpoints.filter (fun e => e.providesTags.contains .AuthStatus)).map
        (fun e => e.name) = ["kvList"] ∧
    (puterApiEndpoints.filter (fun e => e.invalidatesTags.contains .AuthStatus)).map
        (fun e => e.name) = ["signIn", "signOut", "init"] := by
  refine ⟨by decide, by decide, by decide, ?_, ?_, ?_, by decide, by decide, by decide⟩ <;>
  · intro cache
    apply List.filter_eq_self.mpr
    intro a _
    cases h : endpointNamed a.endpoint <;> simp [invalidates]

/-- C1 counterexample: `init` does not return an error immediately with
the capability-unavailable condition when `getPuter()` is null — with
the gateway absent throughout, it settles only after 10000ms, and with
the timeout-specific message rather than "Puter.js not available". -/
theorem init_not_immediate_unavailable_counterexample :
    (initQueryFn (fun _ => false)).settled
        = some (.errorObj initTimeoutMsg) ∧
    (initQueryFn (fun _ => false)).resolvedAtMs = some 10000 ∧
    initTimeoutMsg ≠ puterUnavailable :=
  ⟨by decide, by decide, by decide⟩

/-- C1 (amended): every Remote-Operation Cache operation except `init`
returns the fixed capability-unavailable error immediately and attempts
no delegated sub-capability call (and dispatches nothing) when the
gateway accessor yields null; `init` instead polls, and when the
gateway never becomes available it fails with the distinct
timeout-specific error. -/
theorem cache_ops_unavailable_amended :
    (∀ avail : Nat → Bool, (∀ k, avail k = false) →
      initQueryFn avail
        = ⟨some (.errorObj initTimeoutMsg), [], true, some 10000⟩) ∧
    signInQueryFn none = ⟨.error puterUnavailable, [], []⟩ ∧
    signOutQueryFn none = ⟨.error puterUnavailable, [], []⟩ ∧
    refreshUserQueryFn none = ⟨.error puterUnavailable, [], []⟩ ∧
    (∀ path data, fsWriteQueryFn none path data
        = ⟨.error puterUnavailable, [], []⟩) ∧
    (∀ path isPdf, fsReadQueryFn none path isPdf
        = ⟨.error puterUnavailable, [], []⟩) ∧
    (∀ path, fsReadirQueryFn none path = ⟨.error puterUnavailable, [], []⟩) ∧
    (∀ files, fsUploadQueryFn none files = ⟨.error puterUnavailable, [], []⟩) ∧
    (∀ path, fsDeleteQueryFn none path = ⟨.error puterUnavailable, [], []⟩) ∧
    (∀ prompt imageURL testMode options,
      aiChatQueryFn none prompt imageURL testMode options
        = ⟨.error puterUnavailable, [], []⟩) ∧
    (∀ path message, aiFeedbackQueryFn none path message
        = ⟨.error puterUnavailable, [], []⟩) ∧
    (∀ image testMode, aiImg2txtQueryFn none image testMode
        = ⟨.error puterUnavailable, [], []⟩) ∧
    (∀ key, kvGetQueryFn none key = ⟨.error puterUnavailable, [], []⟩) ∧
    (∀ key value, kvSetQueryFn none key value
        = ⟨.error puterUnavailable, [], []⟩) ∧
    (∀ key, kvDeleteQueryFn none key = ⟨.error puterUnavailable, [], []⟩) ∧
    (∀ pattern returnValues, kvListQueryFn none pattern returnValues
        = ⟨.error puterUnavailable, [], []⟩) ∧
    kvFlushQueryFn none = ⟨.error puterUnavailable, [], []⟩ := by
  refine ⟨?_, rfl, rfl, rfl, fun _ _ => rfl, fun _ _ => rfl, fun _ => rfl,
    fun _ => rfl, fun _ => rfl, fun _ _ _ _ => rfl, fun _ _ => rfl,
    fun _ _ => rfl, fun _ => rfl, fun _ _ => rfl, fun _ => rfl,
    fun _ _ => rfl, rfl⟩
  intro avail h
  have hf : firstAvailTick avail = none := by
    simp only [firstAvailTick, Option.map_eq_none', List.find?_eq_none]
    intro x _
    simp [h]
  simp [initQueryFn, h 0, h 101, hf]

/-- C1 witness: the amended init clause at the never-available gateway. -/
theorem cache_ops_unavailable_witness :
    initQueryFn (fun _ => false)
      = ⟨some (.errorObj initTimeoutMsg), [], true, some 10000⟩ :=
  cache_ops_unavailable_amended.1 (fun _ => false) (fun _ => rfl)

/-- C3 counterexample: when the gateway first becomes available between
the 100th poll and the timeout handler's re-check, neither callback
resolves the promise — the returned promise settles with neither of the
two outcomes (the timers are still cleaned up). -/
theorem init_promise_may_never_settle_counterexample :
    (initQueryFn (fun n => n == 101)).settled = none ∧
    (initQueryFn (fun n => n == 101)).timersCleanedUp = true :=
  ⟨by decide, by decide⟩

/-- C3 (amended): `init` polls every 100ms when the gateway is absent
at the first check; on availability at a poll it clears both timers and
resolves successfully, and if the gateway is still absent through the
timeout's re-check it fails at 10 seconds with the timeout-specific
error distinct from the capability-unavailable condition. The timers
are cleaned up in every execution, but the promise settles in every
execution except the race in which the gateway first appears between
the final poll and the timeout handler's re-check, where it never
settles. -/
theorem init_polling_amended (avail : Nat → Bool) :
    (initQueryFn avail).timersCleanedUp = true ∧
    (avail 0 = true →
      initQueryFn avail
        = ⟨some .data, [.setPuter true, .checkAuthStatus], true, some 0⟩) ∧
    (∀ k, avail 0 = false → firstAvailTick avail = some k →
      initQueryFn avail
        = ⟨some .data, [.setPuter true, .checkAuthStatus], true,
           some (100 * k)⟩) ∧
    (avail 0 = false → firstAvailTick avail = none → avail 101 = false →
      initQueryFn avail
        = ⟨some (.errorObj initTimeoutMsg), [], true, some 10000⟩) ∧
    (avail 0 = false → firstAvailTick avail = none → avail 101 = true →
      (initQueryFn avail).settled = none) ∧
    initTimeoutMsg ≠ puterUnavailable := by
  refine ⟨?_, ?_, ?_, ?_, ?_, by decide⟩
  · unfold initQueryFn
    by_cases h0 : avail 0 = true <;> simp [h0]
    cases hf : firstAvailTick avail <;> simp
    by_cases h101 : avail 101 = true <;> simp [h101]
  · intro h0
    simp [initQueryFn, h0]
  · intro k h0 hf
    simp [initQueryFn, h0, hf]
  · intro h0 hf h101
    simp [initQueryFn, h0, hf, h101]
  · intro h0 hf h101
    simp [initQueryFn, h0, hf, h101]

/-- C3 witness: the amended success clause at an immediately available
gateway. -/
theorem init_polling_witness :
    initQueryFn (fun _ => true)
      = ⟨some .data, [.setPuter true, .checkAuthStatus], true, some 0⟩ :=
  (init_polling_amended (fun _ => true)).2.1 rfl

/-- C5: the four required inputs are validated in the fixed order
company name, job title, job description, file, the text fields checked
for non-emptiness after trimming; validation short-circuits at the
first failure with that field's individual message, and a failed
validation performs no delegated call (in particular no upload) — only
when all four pass does `handleAnalyze` run. -/
theorem validation_fixed_order (gw : Option Puter) (pdf : PdfEnv)
    (jsonParse : String → Except String Feedback) (uuid : String)
    (companyName jobTitle jobDescription : String) (file : Option FileRef)
    (store0 : KvStore) :
    (jsTrim companyName = "" →
      handleSubmit gw pdf jsonParse uuid companyName jobTitle jobDescription
          file store0
        = .alerted "upload.errors.companyNameRequired") ∧
    (jsTrim companyName ≠ "" → jsTrim jobTitle = "" →
      handleSubmit gw pdf jsonParse uuid companyName jobTitle jobDescription
          file store0
        = .alerted "upload.errors.jobTitleRequired") ∧
    (jsTrim companyName ≠ "" → jsTrim jobTitle ≠ "" →
      jsTrim jobDescription = "" →
      handleSubmit gw pdf jsonParse uuid companyName jobTitle jobDescription
          file store0
        = .alerted "upload.errors.jobDescriptionRequired") ∧
    (jsTrim companyName ≠ "" → jsTrim jobTitle ≠ "" →
      jsTrim jobDescription ≠ "" → file = none →
      handleSubmit gw pdf jsonParse uuid companyName jobTitle jobDescription
          file store0
        = .alerted "upload.errors.fileRequired") ∧
    (∀ m, handleSubmit gw pdf jsonParse uuid companyName jobTitle
          jobDescription file store0 = .alerted m →
      (handleSubmit gw pdf jsonParse uuid companyName jobTitle jobDescription
          file store0).callsMade = []) ∧
    (∀ f, jsTrim companyName ≠ "" → jsTrim jobTitle ≠ "" →
      jsTrim jobDescription ≠ "" → file = some f →
      handleSubmit gw pdf jsonParse uuid companyName jobTitle jobDescription
          file store0
        = .ran (handleAnalyze gw pdf jsonParse uuid
            ⟨companyName, jobTitle, jobDescription, f⟩ store0)) := by
  refine ⟨?_, ?_, ?_, ?_, ?_, ?_⟩
  · intro h1
    simp [handleSubmit, h1]
  · intro h1 h2
    simp [handleSubmit, h1, h2]
  · intro h1 h2 h3
    simp [handleSubmit, h1, h2, h3]
  · intro h1 h2 h3 h4
    simp [handleSubmit, h1, h2, h3, h4]
  · intro m hm
    rw [hm]
    rfl
  · intro f h1 h2 h3 h4
    simp [handleSubmit, h1, h2, h3, h4]

/-- C5 witness: a blank company name alerts about the company name, and
with the text fields filled but no file selected the single alert is
about the file. -/
theorem validation_fixed_order_witness :
    handleSubmit none okPdfEnv parseErr "u1" " " "Eng" "Desc"
        (some ⟨"cv.pdf"⟩) []
      = .alerted "upload.errors.companyNameRequired" ∧
    handleSubmit none okPdfEnv parseErr "u1" "Acme" "Eng" "Desc" none []
      = .alerted "upload.errors.fileRequired" :=
  ⟨(validation_fixed_order none okPdfEnv parseErr "u1" " " "Eng" "Desc"
      (some ⟨"cv.pdf"⟩) []).1 (by decide),
   (validation_fixed_order none okPdfEnv parseErr "u1" "Acme" "Eng" "Desc"
      none []).2.2.2.1 (by decide) (by decide) (by decide) rfl⟩

/-- C7: for every input, `convertPdfToImage` returns a result in
exactly one of the two shapes — populated file with a non-empty image
URL and no error, or null file with empty image URL and an error
string — never both, never neither. -/
theorem rasterizer_exactly_one_shape (env : PdfEnv) (name : String) :
    Xor'
      ((convertPdfToImage env name).1.file.isSome = true ∧
       (convertPdfToImage env name).1.imageUrl ≠ "" ∧
       (convertPdfToImage env name).1.error = none)
      ((convertPdfToImage env name).1.file = none ∧
       (convertPdfToImage env name).1.imageUrl = "" ∧
       ∃ s, (convertPdfToImage env name).1.error = some s) := by
  cases hrb : env.readBytes with
  | error e => simp [convertPdfToImage, hrb, Xor']
  | ok bytes =>
    cases hld : env.loadDocument bytes with
    | error e => simp [convertPdfToImage, hrb, hld, Xor']
    | ok u =>
      cases hgp : env.getPage with
      | error e => simp [convertPdfToImage, hrb, hld, hgp, Xor']
      | ok v =>
        by_cases hctx : env.context2dAvailable = true
        · cases hrnd : env.render with
          | error e => simp [convertPdfToImage, hrb, hld, hgp, hctx, hrnd, Xor']
          | ok w =>
            cases htb : env.toBlob with
            | none =>
              simp [convertPdfToImage, hrb, hld, hgp, hctx, hrnd, htb, Xor']
            | some b =>
              simp [convertPdfToImage, hrb, hld, hgp, hctx, hrnd, htb, Xor',
                objectUrlOf_ne_empty]
        · simp [convertPdfToImage, hrb, hld, hgp, hctx, Xor']

/-- C8: whenever the 2D drawing context is unavailable, no blob
serialization is ever attempted, and a run that reaches the capability
check returns exactly the result with empty image URL, null file, and
the error "Canvas 2D context not supported". -/
theorem canvas_context_unavailable (env : PdfEnv) (name : String)
    (h : env.context2dAvailable = false) :
    RasterStep.toBlobCall ∉ (convertPdfToImage env name).2 ∧
    (∀ bytes, env.readBytes = .ok bytes → env.loadDocument bytes = .ok () →
      env.getPage = .ok () →
      (convertPdfToImage env name).1
        = ⟨"", none, some "Canvas 2D context not supported"⟩) := by
  constructor
  · cases hrb : env.readBytes with
    | error e => simp [convertPdfToImage, hrb]
    | ok bytes =>
      cases hld : env.loadDocument bytes with
      | error e => simp [convertPdfToImage, hrb, hld]
      | ok u =>
        cases hgp : env.getPage with
        | error e => simp [convertPdfToImage, hrb, hld, hgp]
        | ok v => simp [convertPdfToImage, hrb, hld, hgp, h]
  · intro bytes h1 h2 h3
    simp [convertPdfToImage, h1, h2, h3, h]

/-- C8 witness: the unavailable-context result and the absence of a
blob attempt, at a concrete environment whose other steps succeed. -/
theorem canvas_context_unavailable_witness :
    (convertPdfToImage noCtxPdfEnv "cv.pdf").1
        = ⟨"", none, some "Canvas 2D context not supported"⟩ ∧
    RasterStep.toBlobCall ∉ (convertPdfToImage noCtxPdfEnv "cv.pdf").2 :=
  ⟨(canvas_context_unavailable noCtxPdfEnv "cv.pdf" rfl).2 "bytes" rfl rfl rfl,
   (canvas_context_unavailable noCtxPdfEnv "cv.pdf" rfl).1⟩

/-- C2: when steps 1-4 succeed (both uploads and the first kvSet) and
the AI feedback result is falsy or its textual payload fails JSON
parsing, the record persisted in step 4 under `resume:<id>` remains
stored with empty feedback — the store is exactly the step-4 store,
never rolled back — and the run ends with a failure status (the
analysis-specific abort or the outer-catch error) without navigating. -/
theorem step4_record_survives_analysis_failure
    (p : Puter) (pdf : PdfEnv) (jsonParse : String → Except String Feedback)
    (uuid : String) (inp : AnalyzeInput) (store0 : KvStore)
    (item1 item2 : FSItem) (imgFile : FileRef) (b4 : Bool)
    (resp : AIResponse) (text perr : String)
    (h1 : p.fs.upload [inp.file.name] = .ok (some item1))
    (h2 : (convertPdfToImage pdf inp.file.name).1.file = some imgFile)
    (h3 : p.fs.upload [imgFile.name] = .ok (some item2))
    (h4 : p.kv.set ("resume:" ++ uuid)
        (stringifyRecord ⟨uuid, item1.path, item2.path, inp.companyName,
          inp.jobTitle, inp.jobDescription, .empty⟩) = .ok b4)
    (h5 : p.ai.chat (aiFeedbackRequest item1.path
          (prepareInstructions inp.jobTitle inp.jobDescription)) = .ok none
      ∨ (p.ai.chat (aiFeedbackRequest item1.path
            (prepareInstructions inp.jobTitle inp.jobDescription))
              = .ok (some resp) ∧
         extractFeedbackText resp = .ok text ∧
         jsonParse text = .error perr)) :
    (handleAnalyze (some p) pdf jsonParse uuid inp store0).store
        = kvInsert ("resume:" ++ uuid)
            (stringifyRecord ⟨uuid, item1.path, item2.path, inp.companyName,
              inp.jobTitle, inp.jobDescription, .empty⟩) store0 ∧
    kvLookup (handleAnalyze (some p) pdf jsonParse uuid inp store0).store
        ("resume:" ++ uuid)
      = some (stringifyRecord ⟨uuid, item1.path, item2.path, inp.companyName,
          inp.jobTitle, inp.jobDescription, .empty⟩) ∧
    (handleAnalyze (some p) pdf jsonParse uuid inp store0).nav = none ∧
    ((handleAnalyze (some p) pdf jsonParse uuid inp store0).statusText
        = "upload.errors.analysisFailed" ∨
     (handleAnalyze (some p) pdf jsonParse uuid inp store0).statusText
        = "Error: " ++ perr) := by
  rcases h5 with h5 | ⟨h5, h6, h7⟩
  · simp [handleAnalyze, handleAnalyzeBody, fsUploadQueryFn, unwrap,
      kvSetEffect, kvSetQueryFn, aiFeedbackQueryFn, Thrown.msgOr,
      h1, h2, h3, h4, h5, kvLookup_insert_self]
  · simp [handleAnalyze, handleAnalyzeBody, fsUploadQueryFn, unwrap,
      kvSetEffect, kvSetQueryFn, aiFeedbackQueryFn, Thrown.msgOr,
      h1, h2, h3, h4, h5, h6, h7, kvLookup_insert_self]

/-- C2 witness: a concrete run in which both uploads and the first
kvSet succeed and the AI feedback result is falsy. -/
theorem step4_record_survives_witness :
    kvLookup (handleAnalyze (some (basePuter (.ok none))) okPdfEnv parseErr
        "u1" inp0 []).store "resume:u1"
      = some (stringifyRecord ⟨"u1", "cv.pdf", "cv.png", "Acme", "Eng",
          "Desc", .empty⟩) ∧
    (handleAnalyze (some (basePuter (.ok none))) okPdfEnv parseErr "u1" inp0
        []).nav = none ∧
    ((handleAnalyze (some (basePuter (.ok none))) okPdfEnv parseErr "u1" inp0
        []).statusText = "upload.errors.analysisFailed" ∨
     (handleAnalyze (some (basePuter (.ok none))) okPdfEnv parseErr "u1" inp0
        []).statusText = "Error: " ++ "Unexpected token N in JSON") := by
  have h := step4_record_survives_analysis_failure (basePuter (.ok none))
    okPdfEnv parseErr "u1" inp0 [] ⟨"cv.pdf"⟩ ⟨"cv.png"⟩ ⟨"cv.png"⟩ true
    respStr "payload" "Unexpected token N in JSON"
    rfl (by decide) rfl rfl (Or.inl rfl)
  exact ⟨h.2.1, h.2.2.1, h.2.2.2⟩

/-- C9 counterexample: a pipeline invocation in which all seven steps
resolve and the AI returned (valid JSON) feedback with overallScore
150: the run completes and navigates, and the stored record carries the
out-of-range score unchanged — the code performs no [0,100] check. -/
theorem overall_score_range_counterexample :
    (handleAnalyze (some (basePuter (.ok (some respStr)))) okPdfEnv parse150
        "u1" inp0 []).nav = some "/resume/u1" ∧
    kvLookup (handleAnalyze (some (basePuter (.ok (some respStr)))) okPdfEnv
        parse150 "u1" inp0 []).store "resume:u1"
      = some (stringifyRecord ⟨"u1", "cv.pdf", "cv.png", "Acme", "Eng",
          "Desc", .parsed fb150⟩) ∧
    fb150.overallScore = 150 ∧ ¬(fb150.overallScore ≤ 100) :=
  ⟨by decide, by decide, by decide, by decide⟩

/-- C9 (amended): a successfully completing invocation stores under
`resume:<id>` exactly the Feedback value parsed from the AI text, with
no range validation of the overall or sub-scores; malformed (non-JSON)
AI output is a terminal error — the outer catch reports the parse
message and the record keeps its empty feedback. -/
theorem stored_feedback_is_parsed_value
    (p : Puter) (pdf : PdfEnv) (jsonParse : String → Except String Feedback)
    (uuid : String) (inp : AnalyzeInput) (store0 : KvStore)
    (item1 item2 : FSItem) (imgFile : FileRef) (b4 : Bool)
    (resp : AIResponse) (text : String)
    (h1 : p.fs.upload [inp.file.name] = .ok (some item1))
    (h2 : (convertPdfToImage pdf inp.file.name).1.file = some imgFile)
    (h3 : p.fs.upload [imgFile.name] = .ok (some item2))
    (h4 : p.kv.set ("resume:" ++ uuid)
        (stringifyRecord ⟨uuid, item1.path, item2.path, inp.companyName,
          inp.jobTitle, inp.jobDescription, .empty⟩) = .ok b4)
    (h5 : p.ai.chat (aiFeedbackRequest item1.path
        (prepareInstructions inp.jobTitle inp.jobDescription))
          = .ok (some resp))
    (h6 : extractFeedbackText resp = .ok text) :
    (∀ f b7, jsonParse text = .ok f →
      p.kv.set ("resume:" ++ uuid)
          (stringifyRecord ⟨uuid, item1.path, item2.path, inp.companyName,
            inp.jobTitle, inp.jobDescription, .parsed f⟩) = .ok b7 →
      (handleAnalyze (some p) pdf jsonParse uuid inp store0).nav
          = some ("/resume/" ++ uuid) ∧
      (handleAnalyze (some p) pdf jsonParse uuid inp store0).statusText
          = "upload.status.complete" ∧
      kvLookup (handleAnalyze (some p) pdf jsonParse uuid inp store0).store
          ("resume:" ++ uuid)
        = some (stringifyRecord ⟨uuid, item1.path, item2.path,
            inp.companyName, inp.jobTitle, inp.jobDescription,
            .parsed f⟩)) ∧
    (∀ e, jsonParse text = .error e →
      (handleAnalyze (some p) pdf jsonParse uuid inp store0).statusText
          = "Error: " ++ e ∧
      (handleAnalyze (some p) pdf jsonParse uuid inp store0).nav = none ∧
      kvLookup (handleAnalyze (some p) pdf jsonParse uuid inp store0).store
          ("resume:" ++ uuid)
        = some (stringifyRecord ⟨uuid, item1.path, item2.path,
            inp.companyName, inp.jobTitle, inp.jobDescription, .empty⟩)) := by
  constructor
  · intro f b7 h7 h8
    simp [handleAnalyze, handleAnalyzeBody, fsUploadQueryFn, unwrap,
      kvSetEffect, kvSetQueryFn, aiFeedbackQueryFn, Thrown.msgOr,
      h1, h2, h3, h4, h5, h6, h7, h8, kvLookup_insert_self]
  · intro e h7
    simp [handleAnalyze, handleAnalyzeBody, fsUploadQueryFn, unwrap,
      kvSetEffect, kvSetQueryFn, aiFeedbackQueryFn, Thrown.msgOr,
      h1, h2, h3, h4, h5, h6, h7, kvLookup_insert_self]

/-- C9 witness: the amended success clause at the concrete out-of-range
feedback, showing the parsed value is stored verbatim. -/
theorem stored_feedback_is_parsed_value_witness :
    (handleAnalyze (some (basePuter (.ok (some respStr)))) okPdfEnv parse150
        "u1" inp0 []).statusText = "upload.status.complete" ∧
    kvLookup (handleAnalyze (some (basePuter (.ok (some respStr)))) okPdfEnv
        parse150 "u1" inp0 []).store "resume:u1"
      = some (stringifyRecord ⟨"u1", "cv.pdf", "cv.png", "Acme", "Eng",
          "Desc", .parsed fb150⟩) := by
  have h := stored_feedback_is_parsed_value (basePuter (.ok (some respStr)))
    okPdfEnv parse150 "u1" inp0 [] ⟨"cv.pdf"⟩ ⟨"cv.png"⟩ ⟨"cv.png"⟩ true
    respStr "payload" rfl (by decide) rfl rfl rfl rfl
  have h2 := h.1 fb150 true rfl rfl
  exact ⟨h2.2.1, h2.2.2⟩

end ResumeAnalyser



